import Mathlib

/-!
Verification development for the lookingcom-backend repository: a shallow
embedding of the flexible-duration room-search orchestrator
(`src/api/v1/rooms.py`, `src/schemas/simplified_search.py`), the analytics
service (`src/services/analytics_service.py`) and the reservation client
(`src/services/capcorn_client.py`), together with proofs of the specified
properties.

Dates are modelled as integers (days since an arbitrary epoch), so Python's
`date + timedelta(days=k)` becomes integer addition and `(d2 - d1).days`
becomes integer subtraction.  Python `float` prices are carried opaquely as
rationals: the code under verification only copies them, never computes with
them.
-/

namespace LookingCom

/-- `Language` enum from `src/schemas/simplified_search.py` ("de" / "en"). -/
inductive Language where
  | GERMAN
  | ENGLISH
deriving DecidableEq, Repr

/-- `ChildAgeRequest` from `src/schemas/simplified_search.py`. -/
structure ChildAgeRequest where
  age : Int
deriving DecidableEq, Repr

/-- `TimeSpan` from `src/schemas/simplified_search.py`: a date range.
`from_date`/`to_date` are days since epoch. -/
structure TimeSpan where
  from_date : Int
  to_date : Int
deriving DecidableEq, Repr

/-- `SimplifiedRoomSearchRequest` from `src/schemas/simplified_search.py`. -/
structure SimplifiedRoomSearchRequest where
  language : Language
  timespan : TimeSpan
  duration : Int
  adults : Int
  children : List ChildAgeRequest
deriving DecidableEq, Repr

/-- The `while current_arrival <= max_arrival` loop body of
`SimplifiedRoomSearchRequest.generate_date_ranges`: starting from arrival
date `current`, append `(current, current + duration)` and step the arrival
by one day while `current <= maxArrival`. -/
def genRangesLoop (duration maxArrival current : Int) : List (Int × Int) :=
  if current ≤ maxArrival then
    (current, current + duration) :: genRangesLoop duration maxArrival (current + 1)
  else
    []
termination_by (maxArrival + 1 - current).toNat
decreasing_by omega

/-- `SimplifiedRoomSearchRequest.generate_date_ranges`
(`src/schemas/simplified_search.py`, lines 62-77): all `(arrival, departure)`
pairs of length `duration` inside the timespan, arrival stepping one day at a
time from `timespan.from_date` while it is at most
`timespan.to_date - duration`. -/
def SimplifiedRoomSearchRequest.generate_date_ranges
    (req : SimplifiedRoomSearchRequest) : List (Int × Int) :=
  genRangesLoop req.duration (req.timespan.to_date - req.duration)
    req.timespan.from_date

/-- Closed form of the enumeration loop: it produces one window per offset
`i < (maxArrival + 1 - current).toNat`, with arrival `current + i`. -/
theorem genRangesLoop_eq (duration maxArrival : Int) :
    ∀ n : Nat, ∀ current : Int, (maxArrival + 1 - current).toNat = n →
      genRangesLoop duration maxArrival current =
        (List.range n).map
          (fun (i : Nat) =>
            (current + (i : Int), current + (i : Int) + duration)) := by
  intro n
  induction n with
  | zero =>
    intro current h
    rw [genRangesLoop]
    have : ¬ current ≤ maxArrival := by omega
    simp [this]
  | succ k ih =>
    intro current h
    rw [genRangesLoop]
    have hc : current ≤ maxArrival := by omega
    have hk : (maxArrival + 1 - (current + 1)).toNat = k := by omega
    rw [if_pos hc, ih (current + 1) hk, List.range_succ_eq_map]
    simp only [List.map_cons, List.map_map]
    congr 1
    · simp
    · apply List.map_congr_left
      intro i _
      simp only [Function.comp_apply, Nat.succ_eq_add_one, Prod.mk.injEq]
      constructor <;> push_cast <;> ring

/-- Closed form of `generate_date_ranges`. -/
theorem generate_date_ranges_eq (req : SimplifiedRoomSearchRequest) :
    req.generate_date_ranges =
      (List.range (req.timespan.to_date - req.duration + 1 -
          req.timespan.from_date).toNat).map
        (fun (i : Nat) => (req.timespan.from_date + (i : Int),
                   req.timespan.from_date + (i : Int) + req.duration)) := by
  apply genRangesLoop_eq
  rfl

theorem generate_date_ranges_length (req : SimplifiedRoomSearchRequest) :
    req.generate_date_ranges.length =
      (req.timespan.to_date - req.duration + 1 -
        req.timespan.from_date).toNat := by
  rw [generate_date_ranges_eq]
  simp

/-! ## Data model of `src/schemas/room_availability.py` -/

/-- `ChildRequest` from `src/schemas/room_availability.py`. -/
structure ChildRequest where
  age : Int
deriving DecidableEq, Repr

/-- `RoomRequest` from `src/schemas/room_availability.py`. -/
structure RoomRequest where
  adults : Int
  children : List ChildRequest
deriving DecidableEq, Repr

/-- `RoomAvailabilityRequest` from `src/schemas/room_availability.py`:
the query sent to the external gateway for one date window. -/
structure RoomAvailabilityRequest where
  language : Int
  hotel_id : String
  arrival : Int
  departure : Int
  rooms : List RoomRequest
deriving DecidableEq, Repr

/-- `ChildResponse` from `src/schemas/room_availability.py`. -/
structure ChildResponse where
  age : Int
deriving DecidableEq, Repr

/-- `RoomOption` from `src/schemas/room_availability.py`.  Prices are Python
floats carried opaquely as rationals (the code only copies them). -/
structure RoomOption where
  catc : String
  type : String
  description : String
  size : Int
  price : Rat
  price_per_person : Rat
  price_per_adult : Rat
  price_per_night : Rat
  board : Int
  room_type : Int
deriving DecidableEq, Repr

/-- `RoomResponse` from `src/schemas/room_availability.py`. -/
structure RoomResponse where
  arrival : Int
  departure : Int
  adults : Int
  children : List ChildResponse
  options : List RoomOption
deriving DecidableEq, Repr

/-- `MemberResponse` from `src/schemas/room_availability.py`. -/
structure MemberResponse where
  hotel_id : String
  rooms : List RoomResponse
deriving DecidableEq, Repr

/-- `RoomAvailabilityResponse` from `src/schemas/room_availability.py`:
the nested member -> room -> option structure a gateway call returns. -/
structure RoomAvailabilityResponse where
  members : List MemberResponse
deriving DecidableEq, Repr

/-- `RoomOptionWithDateRange` from `src/schemas/simplified_search.py`:
one room option tagged with the date window that produced it. -/
structure RoomOptionWithDateRange where
  arrival : Int
  departure : Int
  catc : String
  type : String
  description : String
  size : Int
  price : Rat
  price_per_person : Rat
  price_per_adult : Rat
  price_per_night : Rat
  board : Int
  room_type : Int
deriving DecidableEq, Repr

/-- `SimplifiedRoomSearchResponse` from `src/schemas/simplified_search.py`:
the sweep result returned to the caller. -/
structure SimplifiedRoomSearchResponse where
  total_queries : Nat
  total_options : Nat
  duration_days : Int
  options : List RoomOptionWithDateRange
deriving DecidableEq, Repr

/-- The part of `Settings` (`src/core/config.py`) the sweep endpoint reads. -/
structure Settings where
  capcorn_hotel_id : String
deriving DecidableEq, Repr

/-- `fastapi.HTTPException` as raised by `search_rooms`. -/
structure HTTPExceptionE where
  status_code : Nat
  detail : String
deriving DecidableEq, Repr

/-! ## The sweep orchestrator (`search_rooms` in `src/api/v1/rooms.py`)

The per-window gateway call `CapCornClient.search_room_availability` is an
awaited external HTTP operation; it is modelled as a function
`gw : RoomAvailabilityRequest → Except String RoomAvailabilityResponse`
(a deterministic stub: `.error msg` is the exception captured by
`asyncio.gather(..., return_exceptions=True)`).  `asyncio.gather` returns the
results positionally, in the order the tasks were submitted, regardless of
completion order; positional mapping over the enumerated windows embeds
exactly that contract. -/

/-- The body of `search_single_range` in `search_rooms`
(`src/api/v1/rooms.py`, lines 69-77): the `RoomAvailabilityRequest` built
for one `(arrival, departure)` window. -/
def mkSearchRequest (language_code : Int) (settings : Settings)
    (req : SimplifiedRoomSearchRequest) (children : List ChildRequest)
    (arrival departure : Int) : RoomAvailabilityRequest :=
  { language := language_code
    hotel_id := settings.capcorn_hotel_id
    arrival := arrival
    departure := departure
    rooms := [{ adults := req.adults, children := children }] }

/-- The triple-nested aggregation loop of `search_rooms`
(`src/api/v1/rooms.py`, lines 96-114): flatten one successful window result
`member -> room -> option` into `RoomOptionWithDateRange` records tagged with
the window's arrival and departure. -/
def flattenResult (arrival departure : Int)
    (result : RoomAvailabilityResponse) : List RoomOptionWithDateRange :=
  result.members.flatMap fun member =>
    member.rooms.flatMap fun room =>
      room.options.map fun option =>
        { arrival := arrival
          departure := departure
          catc := option.catc
          type := option.type
          description := option.description
          size := option.size
          price := option.price
          price_per_person := option.price_per_person
          price_per_adult := option.price_per_adult
          price_per_night := option.price_per_night
          board := option.board
          room_type := option.room_type }

/-- The fan-in loop of `search_rooms` (`src/api/v1/rooms.py`, lines 87-114):
walk the gathered per-window results in window order; a window whose result
is an exception contributes nothing, a successful window contributes its
flattened options. -/
def collectOptions
    (pairs : List ((Int × Int) × Except String RoomAvailabilityResponse)) :
    List RoomOptionWithDateRange :=
  pairs.flatMap fun p =>
    match p.2 with
    | .error _ => []
    | .ok result => flattenResult p.1.1 p.1.2 result

/-- The outcome of one call of the `search_rooms` endpoint
(`src/api/v1/rooms.py`): the queries issued to the gateway and the HTTP
result (an `HTTPException` or the JSON response). -/
structure SearchRoomsOutcome where
  issued : List RoomAvailabilityRequest
  response : Except HTTPExceptionE SimplifiedRoomSearchResponse
deriving Repr

/-- The `POST /rooms/search` handler `search_rooms`
(`src/api/v1/rooms.py`, lines 27-131), after the analytics call: enumerate
the date windows; if none, raise HTTP 400; otherwise issue one gateway query
per window, gather the results positionally, flatten the successes in window
order and return the summary.  Per-window failures are swallowed; the only
raise on this path is the empty-enumeration 400. -/
def search_rooms
    (gw : RoomAvailabilityRequest → Except String RoomAvailabilityResponse)
    (settings : Settings) (request : SimplifiedRoomSearchRequest) :
    SearchRoomsOutcome :=
  let date_ranges := request.generate_date_ranges
  if date_ranges.isEmpty then
    { issued := []
      response := .error
        { status_code := 400
          detail :=
            "No valid date ranges could be generated from timespan and duration" } }
  else
    let language_code : Int := if request.language = Language.GERMAN then 0 else 1
    let children := request.children.map fun child => ChildRequest.mk child.age
    let search_tasks := date_ranges.map fun r =>
      mkSearchRequest language_code settings request children r.1 r.2
    let results := search_tasks.map gw
    let all_options := collectOptions (date_ranges.zip results)
    { issued := search_tasks
      response := .ok
        { total_queries := date_ranges.length
          total_options := all_options.length
          duration_days := request.duration
          options := all_options } }

/-! ## Analytics service (`src/services/analytics_service.py`)

`data` is a `dict[str, Any]` payload in Python; it is carried opaquely as a
type parameter `α`.  `datetime.utcnow()` is an external input, passed in as
an integer timestamp.  The `asyncio.Lock` only serializes the appends; the
sequential state-passing model below is the serialized behaviour. -/

/-- `AnalyticsEvent` from `src/services/analytics_service.py`. -/
structure AnalyticsEvent (α : Type) where
  timestamp : Int
  event_type : String
  data : α
  results_count : Option Int
deriving DecidableEq, Repr

/-- `collections.deque(maxlen=n).append x`: append on the right; if the
deque is full, the corresponding number of items is discarded from the
left. -/
def dequeAppend (maxlen : Nat) (xs : List α) (x : α) : List α :=
  if xs.length < maxlen then xs ++ [x]
  else (xs ++ [x]).drop (xs.length + 1 - maxlen)

/-- The in-memory state of `AnalyticsService`
(`src/services/analytics_service.py`, lines 18-30): two bounded deques, one
per event type, both with `maxlen = max_events`. -/
structure AnalyticsService (α : Type) where
  max_events : Nat
  room_searches : List (AnalyticsEvent α)
  reservations : List (AnalyticsEvent α)
deriving Repr

/-- `AnalyticsService.__init__(max_events)`: empty deques. -/
def AnalyticsService.init (α : Type) (max_events : Nat) : AnalyticsService α :=
  { max_events := max_events, room_searches := [], reservations := [] }

/-- `AnalyticsService.__init__` with the default `max_events: int = 10000`. -/
def AnalyticsService.initDefault (α : Type) : AnalyticsService α :=
  AnalyticsService.init α 10000

/-- `AnalyticsService.log_room_search(search_data, results_count)`
(`src/services/analytics_service.py`, lines 32-47). -/
def AnalyticsService.log_room_search (s : AnalyticsService α) (now : Int)
    (search_data : α) (results_count : Int) : AnalyticsService α :=
  { s with
    room_searches := dequeAppend s.max_events s.room_searches
      { timestamp := now
        event_type := "room_search"
        data := search_data
        results_count := some results_count } }

/-- `log_room_search` called without the `results_count` argument, which
Python defaults to `0` (`results_count: int = 0`). -/
def AnalyticsService.log_room_search_default (s : AnalyticsService α)
    (now : Int) (search_data : α) : AnalyticsService α :=
  s.log_room_search now search_data 0

/-- `AnalyticsService.log_reservation(reservation_data)`
(`src/services/analytics_service.py`, lines 49-57); the event's
`results_count` keeps its `None` default. -/
def AnalyticsService.log_reservation (s : AnalyticsService α) (now : Int)
    (reservation_data : α) : AnalyticsService α :=
  { s with
    reservations := dequeAppend s.max_events s.reservations
      { timestamp := now
        event_type := "reservation"
        data := reservation_data
        results_count := none } }

/-- One logging call against the analytics service. -/
inductive AnalyticsOp (α : Type) where
  | roomSearch (now : Int) (search_data : α) (results_count : Int)
  | reservation (now : Int) (reservation_data : α)
deriving Repr

/-- Apply one logging call. -/
def AnalyticsService.applyOp (s : AnalyticsService α) :
    AnalyticsOp α → AnalyticsService α
  | .roomSearch now d rc => s.log_room_search now d rc
  | .reservation now d => s.log_reservation now d

/-- Apply a sequence of logging calls in order (the lock serializes them). -/
def AnalyticsService.applyOps (s : AnalyticsService α)
    (ops : List (AnalyticsOp α)) : AnalyticsService α :=
  ops.foldl AnalyticsService.applyOp s

/-- The full `POST /rooms/search` handler (`src/api/v1/rooms.py`,
lines 27-131) including its analytics side effect: lines 45-47 log exactly
one `room_search` event — `analytics.log_room_search(request.model_dump(...))`,
with no `results_count` argument — before enumeration and fan-out, and the
sweep search then runs.  The logged `data` payload is the dumped request,
modelled as the request itself. -/
def search_rooms_endpoint
    (gw : RoomAvailabilityRequest → Except String RoomAvailabilityResponse)
    (settings : Settings)
    (analytics : AnalyticsService SimplifiedRoomSearchRequest) (now : Int)
    (request : SimplifiedRoomSearchRequest) :
    AnalyticsService SimplifiedRoomSearchRequest × SearchRoomsOutcome :=
  (analytics.log_room_search_default now request,
   search_rooms gw settings request)

/-! ## Reservation client (`src/services/capcorn_client.py`) -/

/-- `MealPlan` from `src/schemas/reservation.py`. -/
inductive MealPlan where
  | BREAKFAST
  | HALF_BOARD
  | FULL_BOARD
  | NO_MEALS
  | ALL_INCLUSIVE
deriving DecidableEq, Repr

/-- `GuestCount` from `src/schemas/reservation.py`. -/
structure GuestCount where
  age_qualifying_code : Int
  count : Int
  age : Option Int
deriving DecidableEq, Repr

/-- `ServiceRequest` from `src/schemas/reservation.py`. -/
structure ServiceRequest where
  name : String
  quantity : Int
  amount_after_tax : Rat
deriving DecidableEq, Repr

/-- `AddressInfo` from `src/schemas/reservation.py`. -/
structure AddressInfo where
  address_line : String
  city_name : String
  postal_code : String
  country_code : String
deriving DecidableEq, Repr

/-- `GuestInfo` from `src/schemas/reservation.py`. -/
structure GuestInfo where
  name_prefix : String
  given_name : String
  surname : String
  phone_number : String
  email : String
  address : AddressInfo
deriving DecidableEq, Repr

/-- `ReservationRequest` from `src/schemas/reservation.py`. -/
structure ReservationRequest where
  hotel_id : String
  room_type_code : String
  number_of_units : Int
  meal_plan : MealPlan
  guest_counts : List GuestCount
  arrival : Int
  departure : Int
  total_amount : Rat
  guest : GuestInfo
  services : List ServiceRequest
  booking_comment : Option String
  reservation_id : String
  source : String
deriving DecidableEq, Repr

/-- `ReservationResponse` from `src/schemas/reservation.py`. -/
structure ReservationResponse where
  success : Bool
  message : String
  reservation_id : Option String
  errors : Option (List String)
deriving DecidableEq, Repr

/-- The observable outcome of the awaited `httpx` POST plus
`response.raise_for_status()` inside `create_reservation`
(`src/services/capcorn_client.py`, lines 263-266): the call completes
normally, raises `httpx.HTTPStatusError` (an HTTP error status, carrying the
response's status code and body text), or raises some other exception (DNS
failure, timeout, connection error, ...) with message `msg`.  This is
exactly the case split the function's `try`/`except` chain observes; the
status-code classification itself belongs to the external `httpx` library. -/
inductive UpstreamOutcome where
  | ok
  | httpStatusError (status_code : Nat) (text : String)
  | otherException (msg : String)
deriving DecidableEq, Repr

/-- `CapCornClient.create_reservation`
(`src/services/capcorn_client.py`, lines 252-284): a total function of the
request and the upstream outcome — every exception branch is caught and
converted into a `ReservationResponse`, never re-raised. -/
def create_reservation (request : ReservationRequest)
    (upstream : UpstreamOutcome) : ReservationResponse :=
  match upstream with
  | .ok =>
      { success := true
        message := "Reservation created successfully"
        reservation_id := some request.reservation_id
        errors := none }
  | .httpStatusError status_code text =>
      { success := false
        message := "Failed to create reservation: " ++ toString status_code
        reservation_id := none
        errors := some [text] }
  | .otherException msg =>
      { success := false
        message := "Failed to create reservation: " ++ msg
        reservation_id := none
        errors := some [msg] }

/-! ## Helper lemmas -/

/-- Element characterization of `generate_date_ranges`: the `i`-th window is
`(from + i, from + i + duration)`. -/
theorem generate_date_ranges_get (req : SimplifiedRoomSearchRequest)
    (i : Nat) (h : i < req.generate_date_ranges.length) :
    req.generate_date_ranges.get ⟨i, h⟩ =
      (req.timespan.from_date + (i : Int),
       req.timespan.from_date + (i : Int) + req.duration) := by
  have he := generate_date_ranges_eq req
  rw [List.get_eq_getElem, List.getElem_of_eq he]
  simp

/-- The gateway query `search_rooms` builds for window `w` (the body of
`search_single_range`, with the language-code and children conversions of
`src/api/v1/rooms.py`, lines 63-66). -/
def window_query (settings : Settings) (request : SimplifiedRoomSearchRequest)
    (w : Int × Int) : RoomAvailabilityRequest :=
  mkSearchRequest (if request.language = Language.GERMAN then 0 else 1)
    settings request (request.children.map fun child => ChildRequest.mk child.age)
    w.1 w.2

/-- On a nonempty window list, `search_rooms` issues one query per window and
answers with the aggregated summary. -/
theorem search_rooms_def_nonempty
    (gw : RoomAvailabilityRequest → Except String RoomAvailabilityResponse)
    (settings : Settings) (request : SimplifiedRoomSearchRequest)
    (h : request.generate_date_ranges ≠ []) :
    search_rooms gw settings request =
      { issued := request.generate_date_ranges.map (window_query settings request)
        response := .ok
          { total_queries := request.generate_date_ranges.length
            total_options := (collectOptions (request.generate_date_ranges.zip
                ((request.generate_date_ranges.map
                  (window_query settings request)).map gw))).length
            duration_days := request.duration
            options := collectOptions (request.generate_date_ranges.zip
                ((request.generate_date_ranges.map
                  (window_query settings request)).map gw)) } } := by
  have hne : ¬ (request.generate_date_ranges.isEmpty = true) := by
    intro hab
    exact h (by simpa using hab)
  unfold search_rooms
  rw [if_neg hne]
  rfl

/-- Fan-in over the positionally gathered results equals a per-window
flat-map. -/
theorem collectOptions_zip_map
    (g : (Int × Int) → Except String RoomAvailabilityResponse)
    (l : List (Int × Int)) :
    collectOptions (l.zip (l.map g)) =
      l.flatMap fun w =>
        match g w with
        | .error _ => []
        | .ok result => flattenResult w.1 w.2 result := by
  induction l with
  | nil => rfl
  | cons a t ih =>
      simp only [collectOptions, List.map_cons, List.zip_cons_cons,
        List.flatMap_cons] at ih ⊢
      rw [ih]

/-- Spec-side recombination, written from the spec's words ("for every
successful window result, flatten its nested member → room → option
structure into a flat sequence of `DatedRoomOption`, tagging each with the
window that produced it.  Concatenate in window order.  No deduplication, no
sorting by price"): one contribution per enumerated window, in enumeration
order; a window whose gateway call succeeded contributes its flattened
tagged options, a failed window contributes nothing. -/
def spec_recombined_options
    (gw : RoomAvailabilityRequest → Except String RoomAvailabilityResponse)
    (settings : Settings) (request : SimplifiedRoomSearchRequest) :
    List RoomOptionWithDateRange :=
  request.generate_date_ranges.flatMap fun w =>
    match gw (window_query settings request w) with
    | .error _ => []
    | .ok result => flattenResult w.1 w.2 result

/-- `search_rooms` refines the spec-side recombination: on a nonempty window
list the response is `total_queries = N` windows, the spec-recombined option
list and its length. -/
theorem search_rooms_response_spec
    (gw : RoomAvailabilityRequest → Except String RoomAvailabilityResponse)
    (settings : Settings) (request : SimplifiedRoomSearchRequest)
    (h : request.generate_date_ranges ≠ []) :
    (search_rooms gw settings request).response =
      .ok
        { total_queries := request.generate_date_ranges.length
          total_options := (spec_recombined_options gw settings request).length
          duration_days := request.duration
          options := spec_recombined_options gw settings request } := by
  rw [search_rooms_def_nonempty gw settings request h]
  have hco : collectOptions (request.generate_date_ranges.zip
      ((request.generate_date_ranges.map (window_query settings request)).map gw)) =
      spec_recombined_options gw settings request := by
    rw [List.map_map, collectOptions_zip_map (gw ∘ window_query settings request)]
    rfl
  rw [hco]

/-! ## Witness fixtures -/

/-- Fixture: the spec's worked example, timespan 2024-01-01..2024-01-08 as
day numbers 0..7, duration 4. -/
def reqEx : SimplifiedRoomSearchRequest :=
  { language := Language.GERMAN
    timespan := { from_date := 0, to_date := 7 }
    duration := 4
    adults := 2
    children := [] }

theorem reqEx_ranges :
    reqEx.generate_date_ranges = [(0, 4), (1, 5), (2, 6), (3, 7)] := by
  rw [generate_date_ranges_eq]; decide

/-- Fixture: a two-window request (timespan 0..3, duration 2). -/
def reqEx2 : SimplifiedRoomSearchRequest :=
  { language := Language.GERMAN
    timespan := { from_date := 0, to_date := 3 }
    duration := 2
    adults := 1
    children := [] }

theorem reqEx2_ranges : reqEx2.generate_date_ranges = [(0, 2), (1, 3)] := by
  rw [generate_date_ranges_eq]; decide

/-- Fixture settings. -/
def settingsEx : Settings := { capcorn_hotel_id := "H1" }

/-- Fixture room option returned by the stub gateway. -/
def optionEx : RoomOption :=
  { catc := "A", type := "Double", description := "Sea view", size := 20,
    price := 100, price_per_person := 50, price_per_adult := 50,
    price_per_night := 25, board := 1, room_type := 1 }

/-- Fixture room result holding one option. -/
def roomEx : RoomResponse :=
  { arrival := 0, departure := 0, adults := 2, children := [],
    options := [optionEx] }

/-- Fixture gateway response holding one member, one room, one option. -/
def respEx : RoomAvailabilityResponse :=
  { members := [{ hotel_id := "H1", rooms := [roomEx] }] }

/-- Fixture dated option: `optionEx` tagged with window `(0, 2)`. -/
def optionExDated : RoomOptionWithDateRange :=
  { arrival := 0, departure := 2, catc := "A", type := "Double",
    description := "Sea view", size := 20, price := 100,
    price_per_person := 50, price_per_adult := 50, price_per_night := 25,
    board := 1, room_type := 1 }

/-- Fixture: deterministic stub gateway failing exactly on arrival day 1. -/
def gwMix : RoomAvailabilityRequest → Except String RoomAvailabilityResponse :=
  fun q => if q.arrival = 1 then .error "window failed" else .ok respEx

/-- Fixture: stub gateway on which every call fails. -/
def gwFail : RoomAvailabilityRequest → Except String RoomAvailabilityResponse :=
  fun _ => .error "connect timeout"

/-! ## Claim theorems -/

/-- **C1**: for every request whose timespan satisfies `to > from` and whose
duration satisfies `1 ≤ duration ≤ width` (`width = to - from` in days),
`generate_date_ranges` returns exactly `width - duration + 1` windows; the
`i`-th window's arrival is `timespan.from + i` — so arrivals start at
`timespan.from` and increase by exactly one day per window, strictly
ascending — and its departure is its arrival plus `duration` days; and in
the boundary case `duration = width` exactly one window is produced,
covering the whole timespan. -/
theorem C1_date_window_enumeration (req : SimplifiedRoomSearchRequest)
    (hto : req.timespan.from_date < req.timespan.to_date)
    (hdur1 : 1 ≤ req.duration)
    (hdur2 : req.duration ≤ req.timespan.to_date - req.timespan.from_date) :
    ((req.generate_date_ranges.length : Int) =
        (req.timespan.to_date - req.timespan.from_date) - req.duration + 1)
    ∧ (∀ (i : Nat) (h : i < req.generate_date_ranges.length),
        (req.generate_date_ranges.get ⟨i, h⟩).1 =
          req.timespan.from_date + (i : Int)
        ∧ (req.generate_date_ranges.get ⟨i, h⟩).2 =
          (req.generate_date_ranges.get ⟨i, h⟩).1 + req.duration)
    ∧ (req.duration = req.timespan.to_date - req.timespan.from_date →
        req.generate_date_ranges =
          [(req.timespan.from_date, req.timespan.to_date)]) := by
  refine ⟨?_, ?_, ?_⟩
  · rw [generate_date_ranges_length]
    omega
  · intro i h
    rw [generate_date_ranges_get]
    exact ⟨rfl, rfl⟩
  · intro hw
    rw [generate_date_ranges_eq]
    have h1 : (req.timespan.to_date - req.duration + 1 -
        req.timespan.from_date).toNat = 1 := by omega
    rw [h1, show List.range 1 = [0] from rfl]
    simp only [List.map_cons, List.map_nil, List.cons.injEq,
      Prod.mk.injEq, and_true, Nat.cast_zero]
    constructor <;> omega

/-- Witness for C1 at the spec's worked example: 4 windows, explicitly
`[(0,4),(1,5),(2,6),(3,7)]`. -/
theorem C1_witness :
    ((reqEx.generate_date_ranges.length : Int) =
        (reqEx.timespan.to_date - reqEx.timespan.from_date) - reqEx.duration + 1)
    ∧ reqEx.generate_date_ranges = [(0, 4), (1, 5), (2, 6), (3, 7)] :=
  ⟨(C1_date_window_enumeration reqEx (by decide) (by decide) (by decide)).1,
   reqEx_ranges⟩

/-- **C2**: on a sweep over a nonempty set of enumerated windows, whatever
subset of the per-window gateway calls fail, the response is a success whose
`options` is the spec-side recombination (`spec_recombined_options`): the
concatenation, in enumerated window order, of each successful window's
flattened member → room → option results, each tagged with the window's
arrival and departure, with failed windows contributing nothing, no
deduplication and no sorting; and `total_queries` is the number of windows
enumerated, not the number that succeeded. -/
theorem C2_sweep_aggregation
    (gw : RoomAvailabilityRequest → Except String RoomAvailabilityResponse)
    (settings : Settings) (request : SimplifiedRoomSearchRequest)
    (h : request.generate_date_ranges ≠ []) :
    (search_rooms gw settings request).response =
      Except.ok
        { total_queries := request.generate_date_ranges.length
          total_options := (spec_recombined_options gw settings request).length
          duration_days := request.duration
          options := spec_recombined_options gw settings request } :=
  search_rooms_response_spec gw settings request h

/-- Witness for C2: two windows, the second one failing; only the first
window's option is returned, dated with its window, and both queries are
counted. -/
theorem C2_witness :
    (search_rooms gwMix settingsEx reqEx2).response =
      Except.ok
        { total_queries := 2
          total_options := 1
          duration_days := 2
          options := [optionExDated] } := by
  rw [C2_sweep_aggregation gwMix settingsEx reqEx2 (by rw [reqEx2_ranges]; decide)]
  simp only [spec_recombined_options, reqEx2_ranges]
  rfl

/-- **C3**: when at least one window is enumerated and every per-window
gateway call fails, `search_rooms` still answers successfully (no raise, no
5xx): `total_queries = N`, `total_options = 0` and an empty option list. -/
theorem C3_all_windows_fail
    (gw : RoomAvailabilityRequest → Except String RoomAvailabilityResponse)
    (settings : Settings) (request : SimplifiedRoomSearchRequest)
    (hne : request.generate_date_ranges ≠ [])
    (hfail : ∀ w ∈ request.generate_date_ranges,
        ∃ e, gw (window_query settings request w) = .error e) :
    (search_rooms gw settings request).response =
      Except.ok
        { total_queries := request.generate_date_ranges.length
          total_options := 0
          duration_days := request.duration
          options := [] } := by
  have hnil : ∀ l : List (Int × Int),
      (∀ w ∈ l, ∃ e, gw (window_query settings request w) = .error e) →
      (l.flatMap fun w =>
        match gw (window_query settings request w) with
        | .error _ => []
        | .ok result => flattenResult w.1 w.2 result) = [] := by
    intro l
    induction l with
    | nil => intro _; rfl
    | cons a t ih =>
        intro hall
        rw [List.flatMap_cons]
        obtain ⟨e, he⟩ := hall a (by simp)
        rw [he, ih (fun w hw => hall w (by simp [hw]))]
        rfl
  have hopts : spec_recombined_options gw settings request = [] :=
    hnil request.generate_date_ranges hfail
  rw [search_rooms_response_spec gw settings request hne, hopts]
  rfl

/-- Witness for C3: both windows fail, the result is a success with two
queries counted and zero options. -/
theorem C3_witness :
    (search_rooms gwFail settingsEx reqEx2).response =
      Except.ok
        { total_queries := 2, total_options := 0, duration_days := 2,
          options := [] } := by
  rw [C3_all_windows_fail gwFail settingsEx reqEx2
    (by rw [reqEx2_ranges]; decide)
    (fun w _ => ⟨"connect timeout", rfl⟩)]
  rw [reqEx2_ranges]
  rfl

/-- Fixture: a request violating the enumeration precondition — timespan
width 2 days (0..2) but duration 3, so `maxArrival = -1 < from = 0`. -/
def reqBad : SimplifiedRoomSearchRequest :=
  { language := Language.GERMAN
    timespan := { from_date := 0, to_date := 2 }
    duration := 3
    adults := 1
    children := [] }

/-- **C4 counterexample**: at the concrete precondition-violating input
`reqBad` (width 2, duration 3), `generate_date_ranges` silently returns the
empty sequence.  The enumerator is a total function into lists — it raises
nothing, in particular no `InvalidRangeError`, contradicting the claim that
the enumerator itself fails on a violated precondition. -/
theorem C4_counterexample : reqBad.generate_date_ranges = [] := by
  rw [generate_date_ranges_eq]; decide

/-- **C4 (amended)**: when the precondition is violated (`duration >
to - from`, so `maxArrival < timespan.from`), `generate_date_ranges`
silently returns the empty sequence, and the failure only surfaces
downstream: `search_rooms` then answers with HTTP 400 and issues no gateway
query. -/
theorem C4_amended_empty_then_http400
    (gw : RoomAvailabilityRequest → Except String RoomAvailabilityResponse)
    (settings : Settings) (req : SimplifiedRoomSearchRequest)
    (hviol : req.timespan.to_date - req.timespan.from_date < req.duration) :
    req.generate_date_ranges = []
    ∧ search_rooms gw settings req =
        { issued := []
          response := Except.error
            { status_code := 400
              detail :=
                "No valid date ranges could be generated from timespan and duration" } } := by
  have hempty : req.generate_date_ranges = [] := by
    rw [generate_date_ranges_eq]
    have h0 : (req.timespan.to_date - req.duration + 1 -
        req.timespan.from_date).toNat = 0 := by omega
    rw [h0]
    rfl
  refine ⟨hempty, ?_⟩
  unfold search_rooms
  rw [hempty]
  rfl

/-- Witness for C4's amended statement at the concrete input `reqBad`. -/
theorem C4_witness :
    reqBad.generate_date_ranges = []
    ∧ search_rooms gwFail settingsEx reqBad =
        { issued := []
          response := Except.error
            { status_code := 400
              detail :=
                "No valid date ranges could be generated from timespan and duration" } } :=
  C4_amended_empty_then_http400 gwFail settingsEx reqBad (by decide)

/-- **C5**: `search_rooms` answers with an error exactly when the
enumeration yields zero windows — within the orchestrator this is the only
pre-dispatch condition that is fatal to the request — and in that case the
error is the client error HTTP 400 (not a 5xx) and no gateway query is
issued. -/
theorem C5_zero_windows_client_error
    (gw : RoomAvailabilityRequest → Except String RoomAvailabilityResponse)
    (settings : Settings) (request : SimplifiedRoomSearchRequest) :
    ((∃ e, (search_rooms gw settings request).response = Except.error e) ↔
        request.generate_date_ranges = [])
    ∧ (request.generate_date_ranges = [] →
        search_rooms gw settings request =
          { issued := []
            response := Except.error
              { status_code := 400
                detail :=
                  "No valid date ranges could be generated from timespan and duration" } }) := by
  have hemp : request.generate_date_ranges = [] →
      search_rooms gw settings request =
        { issued := []
          response := Except.error
            { status_code := 400
              detail :=
                "No valid date ranges could be generated from timespan and duration" } } := by
    intro he
    unfold search_rooms
    rw [he]
    rfl
  refine ⟨⟨?_, ?_⟩, hemp⟩
  · rintro ⟨e, he⟩
    by_contra hne
    rw [search_rooms_response_spec gw settings request hne] at he
    simp at he
  · intro he
    exact ⟨_, by rw [hemp he]⟩

/-- Witness for C5: at the zero-window input `reqBad`, applying the theorem
yields the 400 response with no query issued; at the two-window input
`reqEx2`, the response is not an error. -/
theorem C5_witness :
    search_rooms gwFail settingsEx reqBad =
      { issued := []
        response := Except.error
          { status_code := 400
            detail :=
              "No valid date ranges could be generated from timespan and duration" } }
    ∧ ¬ ∃ e, (search_rooms gwFail settingsEx reqEx2).response = Except.error e := by
  constructor
  · exact (C5_zero_windows_client_error gwFail settingsEx reqBad).2
      (by rw [generate_date_ranges_eq]; decide)
  · intro hex
    have h := (C5_zero_windows_client_error gwFail settingsEx reqEx2).1.mp hex
    rw [reqEx2_ranges] at h
    exact absurd h (by decide)

/-- **C6**: every successful `search_rooms` response satisfies
`total_options = options.length` and `total_queries` equals the number of
enumerated windows. -/
theorem C6_summary_counts
    (gw : RoomAvailabilityRequest → Except String RoomAvailabilityResponse)
    (settings : Settings) (request : SimplifiedRoomSearchRequest)
    (resp : SimplifiedRoomSearchResponse)
    (h : (search_rooms gw settings request).response = Except.ok resp) :
    resp.total_options = resp.options.length
    ∧ resp.total_queries = request.generate_date_ranges.length := by
  by_cases hne : request.generate_date_ranges = []
  · unfold search_rooms at h
    rw [hne] at h
    simp at h
  · rw [search_rooms_response_spec gw settings request hne] at h
    injection h with h'
    rw [← h']
    exact ⟨rfl, rfl⟩

/-- Witness for C6 at the mixed-failure sweep over `reqEx2`. -/
theorem C6_witness :
    (1 : Nat) = [optionExDated].length
    ∧ (2 : Nat) = reqEx2.generate_date_ranges.length := by
  have h := C6_summary_counts gwMix settingsEx reqEx2
    { total_queries := 2, total_options := 1, duration_days := 2,
      options := [optionExDated] }
    (by
      rw [C2_sweep_aggregation gwMix settingsEx reqEx2
        (by rw [reqEx2_ranges]; decide)]
      simp only [spec_recombined_options, reqEx2_ranges]
      rfl)
  exact h

/-- **C7**: `search_rooms` is deterministic — its outcome is a function of
the request and of the stub gateway's answers on the issued queries, so two
invocations with identical input against stubs that answer those queries
identically (in particular, twice against the same deterministic stub)
produce identical outcomes: same summary counts and same option sequence in
the same order. -/
theorem C7_deterministic_search
    (gw₁ gw₂ : RoomAvailabilityRequest → Except String RoomAvailabilityResponse)
    (settings : Settings) (request : SimplifiedRoomSearchRequest)
    (hagree : ∀ q ∈ (search_rooms gw₁ settings request).issued, gw₁ q = gw₂ q) :
    search_rooms gw₁ settings request = search_rooms gw₂ settings request := by
  by_cases hr : request.generate_date_ranges = []
  · unfold search_rooms
    rw [hr]
    rfl
  · have h1 := search_rooms_def_nonempty gw₁ settings request hr
    have h2 := search_rooms_def_nonempty gw₂ settings request hr
    rw [h1, h2]
    have hmaps :
        (request.generate_date_ranges.map (window_query settings request)).map gw₁ =
        (request.generate_date_ranges.map (window_query settings request)).map gw₂ := by
      apply List.map_congr_left
      intro q hq
      apply hagree
      rw [h1]
      exact hq
    rw [hmaps]

/-- Witness for C7: running the sweep twice against the same deterministic
stub gives the same outcome. -/
theorem C7_witness :
    search_rooms gwMix settingsEx reqEx2 = search_rooms gwMix settingsEx reqEx2 :=
  C7_deterministic_search gwMix gwMix settingsEx reqEx2 (fun _ _ => rfl)

/-- A bounded-deque append never exceeds the capacity. -/
theorem dequeAppend_length_le (maxlen : Nat) (xs : List α) (x : α) :
    (dequeAppend maxlen xs x).length ≤ maxlen := by
  unfold dequeAppend
  split
  · simp
    omega
  · simp
    omega

/-- Appending to a full bounded deque evicts exactly the oldest element and
keeps the rest in insertion order. -/
theorem dequeAppend_full (maxlen : Nat) (xs : List α) (x : α)
    (hfull : xs.length = maxlen) (hpos : 1 ≤ maxlen) :
    dequeAppend maxlen xs x = xs.drop 1 ++ [x] := by
  unfold dequeAppend
  rw [if_neg (by omega)]
  have h1 : xs.length + 1 - maxlen = 1 := by omega
  rw [h1, List.drop_append_of_le_length (by omega)]

/-- `applyOps_cons` unfolding. -/
theorem applyOps_cons (s : AnalyticsService α) (op : AnalyticsOp α)
    (t : List (AnalyticsOp α)) :
    s.applyOps (op :: t) = (s.applyOp op).applyOps t := rfl

/-- Any sequence of logging calls preserves the capacity field and keeps
both deques within it. -/
theorem applyOps_bounded (s : AnalyticsService α) (ops : List (AnalyticsOp α))
    (h1 : s.room_searches.length ≤ s.max_events)
    (h2 : s.reservations.length ≤ s.max_events) :
    (s.applyOps ops).max_events = s.max_events
    ∧ (s.applyOps ops).room_searches.length ≤ s.max_events
    ∧ (s.applyOps ops).reservations.length ≤ s.max_events := by
  induction ops generalizing s with
  | nil => exact ⟨rfl, h1, h2⟩
  | cons op t ih =>
      have hstep : (s.applyOp op).max_events = s.max_events
          ∧ (s.applyOp op).room_searches.length ≤ s.max_events
          ∧ (s.applyOp op).reservations.length ≤ s.max_events := by
        cases op with
        | roomSearch now d rc =>
            exact ⟨rfl, dequeAppend_length_le _ _ _, h2⟩
        | reservation now d =>
            exact ⟨rfl, h1, dequeAppend_length_le _ _ _⟩
      obtain ⟨hm, hr, hv⟩ := hstep
      have hrec := ih (s.applyOp op) (by rw [hm]; exact hr) (by rw [hm]; exact hv)
      rw [applyOps_cons]
      exact ⟨by rw [hrec.1, hm], by rw [← hm]; exact hrec.2.1,
        by rw [← hm]; exact hrec.2.2⟩

/-- **C8**: the analytics storage is bounded — starting from a fresh service
with capacity `m` (`max_events`, default 10000), after any sequence of
`log_room_search` and `log_reservation` calls at most `m` room-search events
and at most `m` reservation events are retained; and once a deque is at
capacity, appending a new event of its type evicts exactly the oldest event
of that type, keeping the remaining events in insertion order. -/
theorem C8_analytics_bounded (α : Type) (m : Nat) (ops : List (AnalyticsOp α)) :
    (((AnalyticsService.init α m).applyOps ops).room_searches.length ≤ m
      ∧ ((AnalyticsService.init α m).applyOps ops).reservations.length ≤ m)
    ∧ (AnalyticsService.initDefault α).max_events = 10000
    ∧ (∀ (s : AnalyticsService α) (now : Int) (d : α) (rc : Int),
        s.room_searches.length = s.max_events → 1 ≤ s.max_events →
        (s.log_room_search now d rc).room_searches =
          s.room_searches.drop 1 ++
            [{ timestamp := now, event_type := "room_search", data := d,
               results_count := some rc }])
    ∧ (∀ (s : AnalyticsService α) (now : Int) (d : α),
        s.reservations.length = s.max_events → 1 ≤ s.max_events →
        (s.log_reservation now d).reservations =
          s.reservations.drop 1 ++
            [{ timestamp := now, event_type := "reservation", data := d,
               results_count := none }]) := by
  refine ⟨?_, rfl, ?_, ?_⟩
  · have h := applyOps_bounded (AnalyticsService.init α m) ops
      (by simp [AnalyticsService.init]) (by simp [AnalyticsService.init])
    exact ⟨h.2.1, h.2.2⟩
  · intro s now d rc hfull hpos
    exact dequeAppend_full s.max_events s.room_searches _ hfull hpos
  · intro s now d hfull hpos
    exact dequeAppend_full s.max_events s.reservations _ hfull hpos

/-- Witness for C8: capacity 2, three room-search logs — only 2 events are
retained; and on a concrete full deque the oldest event is evicted. -/
theorem C8_witness :
    ((((AnalyticsService.init Nat 2).applyOps
        [AnalyticsOp.roomSearch 0 10 0, AnalyticsOp.roomSearch 1 11 0,
         AnalyticsOp.roomSearch 2 12 0]).room_searches.length ≤ 2)
      ∧ ((AnalyticsService.mk 2
            [{ timestamp := 0, event_type := "room_search", data := (10 : Nat),
               results_count := some 0 },
             { timestamp := 1, event_type := "room_search", data := 11,
               results_count := some 0 }] []).log_room_search 2 12 0).room_searches =
          [{ timestamp := 1, event_type := "room_search", data := 11,
             results_count := some 0 },
           { timestamp := 2, event_type := "room_search", data := 12,
             results_count := some 0 }]) := by
  constructor
  · exact (C8_analytics_bounded Nat 2
      [AnalyticsOp.roomSearch 0 10 0, AnalyticsOp.roomSearch 1 11 0,
       AnalyticsOp.roomSearch 2 12 0]).1.1
  · rw [(C8_analytics_bounded Nat 2 []).2.2.1 _ 2 12 0 rfl (by decide)]
    rfl

/-- **C9**: `create_reservation` never raises — it is a total function of
the request and the upstream outcome.  When the upstream HTTP call completes
without error it returns `success = true` carrying the request's
`reservation_id`; on an HTTP error status (`httpx.HTTPStatusError` from
`raise_for_status`) or any other exception it returns `success = false` with
the error recorded in `message`/`errors` instead of propagating. -/
theorem C9_create_reservation_no_raise (request : ReservationRequest)
    (upstream : UpstreamOutcome) :
    (upstream = UpstreamOutcome.ok →
      create_reservation request upstream =
        { success := true
          message := "Reservation created successfully"
          reservation_id := some request.reservation_id
          errors := none })
    ∧ (∀ status_code text,
        upstream = UpstreamOutcome.httpStatusError status_code text →
        create_reservation request upstream =
          { success := false
            message := "Failed to create reservation: " ++ toString status_code
            reservation_id := none
            errors := some [text] })
    ∧ (∀ msg, upstream = UpstreamOutcome.otherException msg →
        create_reservation request upstream =
          { success := false
            message := "Failed to create reservation: " ++ msg
            reservation_id := none
            errors := some [msg] }) := by
  refine ⟨?_, ?_, ?_⟩
  · intro h
    subst h
    rfl
  · intro status_code text h
    subst h
    rfl
  · intro msg h
    subst h
    rfl

/-- Fixture reservation request for the C9 witness. -/
def resReqEx : ReservationRequest :=
  { hotel_id := "H1"
    room_type_code := "A"
    number_of_units := 1
    meal_plan := MealPlan.BREAKFAST
    guest_counts := [{ age_qualifying_code := 10, count := 2, age := none }]
    arrival := 0
    departure := 2
    total_amount := 200
    guest :=
      { name_prefix := "Herr"
        given_name := "Max"
        surname := "Muster"
        phone_number := "+43"
        email := "max@example.com"
        address :=
          { address_line := "Street 1", city_name := "Vienna",
            postal_code := "1010", country_code := "AT" } }
    services := []
    booking_comment := none
    reservation_id := "R-42"
    source := "Hackathon" }

/-- Witness for C9: a succeeding upstream call yields the success response
carrying `"R-42"`; an HTTP 502 yields a failure response with the body
recorded. -/
theorem C9_witness :
    create_reservation resReqEx UpstreamOutcome.ok =
      { success := true
        message := "Reservation created successfully"
        reservation_id := some "R-42"
        errors := none }
    ∧ create_reservation resReqEx (UpstreamOutcome.httpStatusError 502 "bad gateway") =
      { success := false
        message := "Failed to create reservation: 502"
        reservation_id := none
        errors := some ["bad gateway"] } :=
  ⟨(C9_create_reservation_no_raise resReqEx UpstreamOutcome.ok).1 rfl,
   (C9_create_reservation_no_raise resReqEx
      (UpstreamOutcome.httpStatusError 502 "bad gateway")).2.1 502 "bad gateway" rfl⟩

/-- **C10**: the `POST /rooms/search` endpoint's analytics effect is exactly
one `log_room_search` call, made before enumeration and fan-out with the
dumped request and no results count, which Python defaults to `0`; hence
every room-search event it records carries `results_count = 0`, regardless
of the gateway's answers, and the reservations deque is untouched. -/
theorem C10_room_search_results_count_zero
    (gw : RoomAvailabilityRequest → Except String RoomAvailabilityResponse)
    (settings : Settings)
    (analytics : AnalyticsService SimplifiedRoomSearchRequest)
    (now : Int) (request : SimplifiedRoomSearchRequest) :
    (search_rooms_endpoint gw settings analytics now request).1 =
      analytics.log_room_search now request 0
    ∧ (search_rooms_endpoint gw settings analytics now request).1.room_searches =
        dequeAppend analytics.max_events analytics.room_searches
          { timestamp := now, event_type := "room_search", data := request,
            results_count := some 0 }
    ∧ (∀ e ∈ (search_rooms_endpoint gw settings analytics now request).1.room_searches,
        e ∈ analytics.room_searches ∨ e.results_count = some 0)
    ∧ (search_rooms_endpoint gw settings analytics now request).1.reservations =
        analytics.reservations := by
  refine ⟨rfl, rfl, ?_, rfl⟩
  intro e he
  have he' : e ∈ analytics.room_searches ++
      [{ timestamp := now, event_type := "room_search", data := request,
         results_count := some 0 }] := by
    have hd : (search_rooms_endpoint gw settings analytics now request).1.room_searches =
        dequeAppend analytics.max_events analytics.room_searches
          { timestamp := now, event_type := "room_search", data := request,
            results_count := some 0 } := rfl
    rw [hd] at he
    unfold dequeAppend at he
    split at he
    · exact he
    · exact List.mem_of_mem_drop he
  rcases List.mem_append.mp he' with hmem | hmem
  · exact Or.inl hmem
  · right
    rw [List.mem_singleton.mp hmem]

/-- Witness for C10: from a fresh default service, the endpoint records
exactly one room-search event with `results_count = 0`, even though the
sweep itself finds an option. -/
theorem C10_witness :
    (search_rooms_endpoint gwMix settingsEx
        (AnalyticsService.initDefault SimplifiedRoomSearchRequest) 5 reqEx2).1.room_searches =
      [{ timestamp := 5, event_type := "room_search", data := reqEx2,
         results_count := some 0 }] := by
  rw [(C10_room_search_results_count_zero gwMix settingsEx
    (AnalyticsService.initDefault SimplifiedRoomSearchRequest) 5 reqEx2).2.1]
  rfl

end LookingCom
